import Mathlib

/-!
Verification of the taskwarrior-schedule repository's core logic:
the TaskWarrior CLI adapter (`src/schedule/taskwarrior.py`), the batch
mutation orchestration in the TUI app (`src/schedule/app.py`), and the
date-field selection state.  Python strings are modelled as `List Char`
where whitespace handling matters, task/field names elsewhere as `String`;
wall-clock times as `ℚ`; the external `task` subprocess as an explicit
outcome parameter.
-/

namespace Schedule

/-! ## Python string primitives used by `get_tasks` -/

/-- ASCII whitespace recognised by Python's `str.strip()` / `str.split()`. -/
def pyIsSpace (c : Char) : Bool :=
  c == ' ' || c == '\t' || c == '\n' || c == '\r' || c == '\x0b' || c == '\x0c'

/-- Python `str.strip()`: drop leading and trailing whitespace. -/
def pyStrip (s : List Char) : List Char :=
  ((s.dropWhile pyIsSpace).reverse.dropWhile pyIsSpace).reverse

/-- Worker for `pySplit`: `acc` holds the current token's characters reversed. -/
def pySplitGo : List Char → List Char → List (List Char)
  | [], acc => if acc = [] then [] else [acc.reverse]
  | c :: cs, acc =>
    if pyIsSpace c then
      if acc = [] then pySplitGo cs []
      else acc.reverse :: pySplitGo cs []
    else pySplitGo cs (c :: acc)

/-- Python `str.split()` with no argument: split on whitespace runs,
producing no empty tokens. -/
def pySplit (s : List Char) : List (List Char) :=
  pySplitGo s []

/-! ## `TaskWarriorClient.get_tasks` command resolution
(`src/schedule/taskwarrior.py`, lines 84-121) -/

/-- The leading arguments of every export invocation:
`[self.command, "rc.confirmation=off", "rc.hooks=0"]` (line 108). -/
def getTasksBase : List (List Char) :=
  ["task".toList, "rc.confirmation=off".toList, "rc.hooks=0".toList]

/-- The `"export"` argument. -/
def exportTok : List Char :=
  "export".toList

/-- Line 85: `normalized = "next" if filter_or_report is None else
filter_or_report.strip()`. -/
def normalizeFilter (filter_or_report : Option (List Char)) : List Char :=
  match filter_or_report with
  | none => "next".toList
  | some s => pyStrip s

/-- Lines 88-121 of `get_tasks`, after normalization, with the known
report-name set passed in (the source fetches it via the cached
`get_report_names`).  `rf.1 = []` plays the role of Python's falsy `report`
(`None`; split tokens are never empty strings). -/
def getTasksCmdCore (normalized : List Char) (report_names : List (List Char)) :
    List (List Char) :=
  let tokens : List (List Char) := if normalized = [] then [] else pySplit normalized
  let rf : List Char × List (List Char) :=
    match tokens with
    | [] => ([], [])
    | t :: ts =>
      let maybe_report := (t :: ts).getLast (List.cons_ne_nil t ts)
      if report_names.contains maybe_report then (maybe_report, (t :: ts).dropLast)
      else ([], t :: ts)
  if rf.1 ≠ [] then getTasksBase ++ rf.2 ++ [exportTok, rf.1]
  else if normalized ≠ [] then getTasksBase ++ tokens ++ [exportTok]
  else getTasksBase ++ [exportTok]

/-- The full argument vector built by `get_tasks(filter_or_report)`. -/
def getTasksCmd (filter_or_report : Option (List Char))
    (report_names : List (List Char)) : List (List Char) :=
  getTasksCmdCore (normalizeFilter filter_or_report) report_names

/-- The fetch-command resolution algorithm as worded by the spec
(steps 2-4 of the "fetch tasks" operation), for comparison with
`getTasksCmdCore`: tokenize; zero tokens means export all; otherwise inspect
the last token only, treating it as the report when it is a known report name
and the preceding tokens as filter, else the entire token sequence as filter. -/
def getTasksCmdSpecCore (normalized : List Char) (report_names : List (List Char)) :
    List (List Char) :=
  let tokens := pySplit normalized
  match tokens with
  | [] => getTasksBase ++ [exportTok]
  | t :: ts =>
    let last := (t :: ts).getLast (List.cons_ne_nil t ts)
    if report_names.contains last then
      getTasksBase ++ (t :: ts).dropLast ++ [exportTok, last]
    else
      getTasksBase ++ (t :: ts) ++ [exportTok]

/-- Spec steps 1-4 assembled: normalization (`None` becomes `"next"`, else
strip) followed by the spec's resolution algorithm. -/
def getTasksCmdSpec (filter_or_report : Option (List Char))
    (report_names : List (List Char)) : List (List Char) :=
  getTasksCmdSpecCore (normalizeFilter filter_or_report) report_names

/-! ## `TaskWarriorClient` state: the report-name cache
(`src/schedule/taskwarrior.py`, lines 14-63 and 134-162) -/

/-- The mutable fields of `TaskWarriorClient` relevant to the cache:
`_report_cache`, `_report_cache_time`, `_report_cache_ttl`
(`__init__`, lines 17-19).  Wall-clock time is modelled as `ℚ`. -/
structure TWState where
  reportCache : Option (Finset String)
  reportCacheTime : ℚ
  reportCacheTtl : ℚ
deriving DecidableEq

/-- The state produced by `__init__`: no cache, time `0.0`, TTL `15.0`. -/
def initTWState : TWState :=
  { reportCache := none, reportCacheTime := 0, reportCacheTtl := 15 }

/-- What the external `task ... _config` subprocess does when it is actually
invoked: exit 0 with output parsing to the given report-name set, or exit
non-zero (`err`, which makes `get_report_names` raise). -/
inductive FetchOutcome where
  | ok (names : Finset String)
  | err
deriving DecidableEq

/-- The fetch path of `get_report_names` (lines 40-63): invoke the engine,
raise on non-zero exit (`none`; the cache fields are left untouched because
the raise happens before the stores), otherwise store the parsed set with the
entry timestamp `now` and return it. -/
def getReportNamesFetch (s : TWState) (now : ℚ) (engine : FetchOutcome) :
    Option (TWState × Finset String) × Bool :=
  match engine with
  | .err => (none, true)
  | .ok names =>
    (some ({ s with reportCache := some names, reportCacheTime := now }, names), true)

/-- `get_report_names` (lines 33-63): if `_report_cache is not None` and
`now - _report_cache_time < _report_cache_ttl`, return the cached set without
invoking the engine; otherwise run the fetch path.  The second component
records whether the subprocess was invoked; a `none` first component models
the raised `CalledProcessError`. -/
def getReportNames (s : TWState) (now : ℚ) (engine : FetchOutcome) :
    Option (TWState × Finset String) × Bool :=
  match s.reportCache with
  | some cache =>
    if now - s.reportCacheTime < s.reportCacheTtl then (some (s, cache), false)
    else getReportNamesFetch s now engine
  | none => getReportNamesFetch s now engine

/-- A sequence of `get_report_names()` calls on one client, each given by its
wall-clock time and the engine's behaviour if invoked.  Returns the final
state, the number of subprocess invocations, and each call's returned set
(`none` for a call that raised). -/
def runCalls : TWState → List (ℚ × FetchOutcome) →
    TWState × Nat × List (Option (Finset String))
  | s, [] => (s, 0, [])
  | s, (now, engine) :: rest =>
    match getReportNames s now engine with
    | (some (s', names), invoked) =>
      let r := runCalls s' rest
      (r.1, (if invoked then 1 else 0) + r.2.1, some names :: r.2.2)
    | (none, invoked) =>
      let r := runCalls s rest
      (r.1, (if invoked then 1 else 0) + r.2.1, none :: r.2.2)

/-! ## `TaskWarriorClient.modify_task`
(`src/schedule/taskwarrior.py`, lines 134-162) -/

/-- The argument vector built by `modify_task` (lines 146-154):
`[self.command, "rc.confirmation=off", "rc.hooks=0", f"uuid:{uuid}",
"modify"]` followed by one `f"{key}:{value}"` per modification. -/
def modifyTaskCmd (uuid : List Char) (mods : List (List Char × List Char)) :
    List (List Char) :=
  ["task".toList, "rc.confirmation=off".toList, "rc.hooks=0".toList,
    "uuid:".toList ++ uuid, "modify".toList]
  ++ mods.map (fun kv => kv.1 ++ ":".toList ++ kv.2)

/-- The options this code passes to `subprocess.run` beyond the argument
vector, as far as process hygiene is concerned: the `timeout=` argument
(`none` means the default, i.e. unbounded) and whether standard input is
redirected away from the parent's (`false` means the child inherits it). -/
structure SubprocessOptions where
  timeout : Option ℚ
  stdinClosed : Bool
deriving DecidableEq

/-- `subprocess.run(cmd, capture_output=True, text=True)` in `modify_task`
(lines 156-160): no `timeout=`, no `stdin=`. -/
def modifyTaskRunOptions : SubprocessOptions :=
  { timeout := none, stdinClosed := false }

/-- `subprocess.run(cmd, capture_output=True, text=True)` in `get_tasks`
(lines 123-127): no `timeout=`, no `stdin=`. -/
def getTasksRunOptions : SubprocessOptions :=
  { timeout := none, stdinClosed := false }

/-- `subprocess.run([...], capture_output=True, text=True)` in
`get_report_names` (lines 40-44): no `timeout=`, no `stdin=`. -/
def getReportNamesRunOptions : SubprocessOptions :=
  { timeout := none, stdinClosed := false }

/-- `modify_task` (lines 134-162): builds the command, runs the subprocess
(whose exit code and stderr text are passed in), and returns
`result.returncode == 0` — a bare boolean; the captured stderr is dropped.
The client state is passed through because the method touches none of the
cache fields. -/
def modifyTask (s : TWState) (uuid : List Char)
    (mods : List (List Char × List Char)) (returncode : Int)
    (_stderr : List Char) : TWState × Bool :=
  (s, returncode == 0)

/-! ## `ScheduleApp` state and batch mutation
(`src/schedule/app.py`) -/

/-- A task record as far as targeting is concerned: `task.get("uuid", "")`. -/
structure TaskRec where
  uuid : String
deriving DecidableEq, Repr

/-- The app state read by `get_selected_tasks`, `action_clear_date` and
`_schedule_with_hotkey`: the hotkey configuration (`self.config["hotkeys"]`,
an ordered mapping), the active date fields
(`self.date_field_mgr.get_active()`), the selection set
(`self.selected_tasks`, listed in its iteration order), the task snapshot
(`self.tasks`), and the table's cursor state (`row_count`,
`is_valid_coordinate(cursor_coordinate)`, `cursor_row`). -/
structure AppState where
  hotkeys : List (String × String)
  activeFields : List String
  selectedTasks : List String
  tasks : List TaskRec
  rowCount : Nat
  cursorValid : Bool
  cursorRow : Int
deriving DecidableEq

/-- Python `dict` lookup on the hotkeys mapping (keys are unique; first
match wins). -/
def lookupHotkey : List (String × String) → String → Option String
  | [], _ => none
  | (k, v) :: rest, key => if k = key then some v else lookupHotkey rest key

/-- `ScheduleApp.get_selected_tasks` (lines 289-308): the selection set's
members if any are selected, otherwise the UUID of the task under the cursor
when the table and cursor state identify one with a non-empty uuid, otherwise
empty. -/
def get_selected_tasks (s : AppState) : List String :=
  if s.selectedTasks ≠ [] then s.selectedTasks
  else if s.rowCount = 0 then []
  else if s.cursorValid = false then []
  else if 0 ≤ s.cursorRow ∧ s.cursorRow < (s.tasks.length : Int) then
    match s.tasks.get? s.cursorRow.toNat with
    | some t => if t.uuid ≠ "" then [t.uuid] else []
    | none => []
  else []

/-- The failure message of `_schedule_with_hotkey` (lines 455-459):
`f"Failed to schedule: {stderr}"` when stderr is truthy, else
`f"Failed to schedule task {uuid[:8]}"`. -/
def scheduleFailMsg (uuid stderr : String) : String :=
  if stderr ≠ "" then "Failed to schedule: " ++ stderr
  else "Failed to schedule task " ++ uuid.take 8

/-- The failure message of `action_clear_date` (lines 396-400). -/
def clearFailMsg (uuid stderr : String) : String :=
  if stderr ≠ "" then "Failed to clear dates: " ++ stderr
  else "Failed to clear dates for task " ++ uuid.take 8

/-- The observable effects of one batch action: the error notifications shown
(in order), the adapter `modify_task` calls made (uuid and field map, in
order), and whether `clear_selection()` and `refresh_tasks()` ran. -/
structure BatchResult where
  errors : List String
  modifyCalls : List (String × List (String × String))
  selectionCleared : Bool
  refreshed : Bool
deriving DecidableEq

/-- The shared per-task loop of `action_clear_date` (lines 389-401) and
`_schedule_with_hotkey` (lines 450-460) *as written*, i.e. against an
adapter that already returns the `(success, stderr)` pair the call sites'
tuple unpack expects.  The loop as actually executed with the repository's
`modify_task` — which returns a bare bool, so the unpack raises — is
`runBatchPy` below. -/
def runBatch (modify : String → List (String × String) → Bool × String)
    (failMsg : String → String → String)
    (modifications : List (String × String)) :
    List String → List String × List (String × List (String × String))
  | [] => ([], [])
  | uuid :: rest =>
    let res := modify uuid modifications
    let r := runBatch modify failMsg modifications rest
    ((if res.1 then r.1 else failMsg uuid res.2 :: r.1),
      (uuid, modifications) :: r.2)

/-- `ScheduleApp._schedule_with_hotkey` (lines 433-463): check the hotkey is
configured, that at least one date field is active, and that at least one
task is targeted — each unmet check shows one error and stops with no other
effect; otherwise run the batch assigning the hotkey's value to every active
field of every targeted task, then clear the selection and refresh. -/
def scheduleWithHotkey (s : AppState) (hotkey : String)
    (modify : String → List (String × String) → Bool × String) : BatchResult :=
  match lookupHotkey s.hotkeys hotkey with
  | none =>
    { errors := ["Hotkey " ++ hotkey ++ " not configured"], modifyCalls := [],
      selectionCleared := false, refreshed := false }
  | some hotkey_value =>
    let active_fields := s.activeFields
    if active_fields = [] then
      { errors := ["No active date fields. Use W/S/D to toggle."],
        modifyCalls := [], selectionCleared := false, refreshed := false }
    else
      let selected_uuids := get_selected_tasks s
      if selected_uuids = [] then
        { errors := ["No tasks selected"], modifyCalls := [],
          selectionCleared := false, refreshed := false }
      else
        let modifications := active_fields.map (fun field => (field, hotkey_value))
        let b := runBatch modify scheduleFailMsg modifications selected_uuids
        { errors := b.1, modifyCalls := b.2, selectionCleared := true,
          refreshed := true }

/-- `ScheduleApp.action_clear_date` (lines 379-404) as written against a
pair-returning adapter: same contract as `scheduleWithHotkey` with the empty
string assigned to every active field, and no hotkey precondition.  The
actually-executing model is `actionClearDatePy` below. -/
def action_clear_date (s : AppState)
    (modify : String → List (String × String) → Bool × String) : BatchResult :=
  if s.activeFields = [] then
    { errors := ["No active date fields to clear"], modifyCalls := [],
      selectionCleared := false, refreshed := false }
  else
    let selected_uuids := get_selected_tasks s
    if selected_uuids = [] then
      { errors := ["No tasks selected"], modifyCalls := [],
        selectionCleared := false, refreshed := false }
    else
      let modifications := s.activeFields.map (fun field => (field, ""))
      let b := runBatch modify clearFailMsg modifications selected_uuids
      { errors := b.1, modifyCalls := b.2, selectionCleared := true,
        refreshed := true }

/-! ## The batch loop as actually executed

`modify_task` returns a bare bool (see `modifyTask`), while both call sites
read `success, stderr = self.tw_client.modify_task(...)` (`app.py` lines 391
and 452).  In Python, tuple-unpacking a bool raises
`TypeError: cannot unpack non-iterable bool object`, and neither the loop nor
the enclosing action method catches it, so the action aborts at the first
target.  The following definitions embed that actual control flow. -/

/-- A Python value returned by the adapter: the bare bool `modify_task`
actually returns, or the `(success, stderr)` pair the call sites expect. -/
inductive PyResult where
  | bool (b : Bool)
  | pair (success : Bool) (stderr : String)
deriving DecidableEq

/-- Python tuple unpacking `success, stderr = v`: succeeds only on a pair;
on a bool it raises `TypeError` (modelled as `none`). -/
def unpack2 : PyResult → Option (Bool × String)
  | .pair b s => some (b, s)
  | .bool _ => none

/-- The observable effects of one batch action as actually executed: the
error notifications shown, the adapter calls made, whether a `TypeError`
escaped from the loop, and whether `clear_selection()` / `refresh_tasks()`
ran. -/
structure BatchRun where
  errors : List String
  modifyCalls : List (String × List (String × String))
  raisedTypeError : Bool
  selectionCleared : Bool
  refreshed : Bool
deriving DecidableEq

/-- The per-task loop as actually executed: each iteration calls the adapter,
then unpacks its return value into `success, stderr`; when the unpack raises,
the loop aborts — that task's failure is not reported and the remaining
targets are not attempted.  Returns (errors shown, adapter calls made,
whether a `TypeError` was raised). -/
def runBatchPy (adapter : String → List (String × String) → PyResult)
    (failMsg : String → String → String)
    (modifications : List (String × String)) :
    List String → List String × List (String × List (String × String)) × Bool
  | [] => ([], [], false)
  | uuid :: rest =>
    let v := adapter uuid modifications
    match unpack2 v with
    | none => ([], [(uuid, modifications)], true)
    | some (success, stderr) =>
      let r := runBatchPy adapter failMsg modifications rest
      ((if success then r.1 else failMsg uuid stderr :: r.1),
        (uuid, modifications) :: r.2.1, r.2.2)

/-- `_schedule_with_hotkey` as actually executed: the same preconditions as
`scheduleWithHotkey`, then the unpacking loop; the trailing
`clear_selection()` and `refresh_tasks()` (lines 462-463) run only when no
iteration raised. -/
def scheduleWithHotkeyPy (s : AppState) (hotkey : String)
    (adapter : String → List (String × String) → PyResult) : BatchRun :=
  match lookupHotkey s.hotkeys hotkey with
  | none =>
    { errors := ["Hotkey " ++ hotkey ++ " not configured"], modifyCalls := [],
      raisedTypeError := false, selectionCleared := false, refreshed := false }
  | some hotkey_value =>
    if s.activeFields = [] then
      { errors := ["No active date fields. Use W/S/D to toggle."],
        modifyCalls := [], raisedTypeError := false, selectionCleared := false,
        refreshed := false }
    else
      let selected_uuids := get_selected_tasks s
      if selected_uuids = [] then
        { errors := ["No tasks selected"], modifyCalls := [],
          raisedTypeError := false, selectionCleared := false,
          refreshed := false }
      else
        let modifications := s.activeFields.map (fun field => (field, hotkey_value))
        let b := runBatchPy adapter scheduleFailMsg modifications selected_uuids
        { errors := b.1, modifyCalls := b.2.1, raisedTypeError := b.2.2,
          selectionCleared := !b.2.2, refreshed := !b.2.2 }

/-- `action_clear_date` as actually executed, with the same abort-on-raise
control flow. -/
def actionClearDatePy (s : AppState)
    (adapter : String → List (String × String) → PyResult) : BatchRun :=
  if s.activeFields = [] then
    { errors := ["No active date fields to clear"], modifyCalls := [],
      raisedTypeError := false, selectionCleared := false, refreshed := false }
  else
    let selected_uuids := get_selected_tasks s
    if selected_uuids = [] then
      { errors := ["No tasks selected"], modifyCalls := [],
        raisedTypeError := false, selectionCleared := false, refreshed := false }
    else
      let modifications := s.activeFields.map (fun field => (field, ""))
      let b := runBatchPy adapter clearFailMsg modifications selected_uuids
      { errors := b.1, modifyCalls := b.2.1, raisedTypeError := b.2.2,
        selectionCleared := !b.2.2, refreshed := !b.2.2 }

/-! ## Date-field selection state -/

/-- Modelled from the spec: `DateFieldManager` is imported from
`schedule.config` by `app.py` and exercised by `tests/test_config.py`, but its
definition is not present under `src/`.  Per the spec's Date-Field Selection
State: a set of currently-active field names (membership is binary — no
duplicates, no ordering dependency); initial membership supplied by
configuration at construction. -/
structure DateFieldManager where
  active : Finset String
deriving DecidableEq

/-- Modelled from the spec: construction from the configured initial fields
(duplicates collapse, since membership is binary). -/
def DateFieldManager.init (fields : List String) : DateFieldManager :=
  { active := fields.toFinset }

/-- Modelled from the spec: `toggle(field)` flips membership of `field`. -/
def DateFieldManager.toggle (m : DateFieldManager) (field : String) :
    DateFieldManager :=
  if field ∈ m.active then { active := m.active.erase field }
  else { active := insert field m.active }

/-- Modelled from the spec: `get_active()` returns a deterministically
ordered (sorted) sequence of the active field names. -/
def DateFieldManager.get_active (m : DateFieldManager) : List String :=
  m.active.sort (· ≤ ·)

/-! ## Helper lemmas -/

/-- Every token produced by `pySplitGo` is a non-empty string. -/
lemma pySplitGo_ne_nil (s : List Char) :
    ∀ (acc : List Char), ∀ t ∈ pySplitGo s acc, t ≠ [] := by
  induction s with
  | nil =>
    intro acc t ht
    unfold pySplitGo at ht
    by_cases h : acc = []
    · simp [h] at ht
    · simp [h] at ht
      simp [ht, h]
  | cons c cs ih =>
    intro acc t ht
    unfold pySplitGo at ht
    by_cases hsp : pyIsSpace c
    · simp only [hsp, if_true] at ht
      by_cases h : acc = []
      · simp only [h, if_true] at ht
        exact ih [] t ht
      · simp only [h, if_false] at ht
        rcases List.mem_cons.mp ht with h1 | h1
        · simpa [h1] using h
        · exact ih [] t h1
    · simp only [hsp, if_false] at ht
      exact ih (c :: acc) t ht

/-- Every token produced by `pySplit` is a non-empty string. -/
lemma pySplit_ne_nil (s : List Char) : ∀ t ∈ pySplit s, t ≠ [] :=
  pySplitGo_ne_nil s []

/-- The command built by the source's `get_tasks` coincides with the spec's
resolution algorithm on every normalized input. -/
lemma getTasksCmdCore_eq_spec (n : List Char) (rn : List (List Char)) :
    getTasksCmdCore n rn = getTasksCmdSpecCore n rn := by
  unfold getTasksCmdCore getTasksCmdSpecCore
  by_cases hn : n = []
  · subst hn; rfl
  · simp only [if_neg hn]
    cases hts : pySplit n with
    | nil => simp [hn]
    | cons t ts =>
      by_cases hm : (t :: ts).getLast (List.cons_ne_nil t ts) ∈ rn
      · have hne : (t :: ts).getLast (List.cons_ne_nil t ts) ≠ [] := by
          apply pySplit_ne_nil n
          rw [hts]
          exact List.getLast_mem _
        simp [hm, hne]
      · simp [hm, hn]

/-- A call that finds a valid cache entry returns the cached set unchanged
and does not invoke the engine. -/
lemma getReportNames_cache_hit (c : Finset String) (tc ttl now : ℚ)
    (engine : FetchOutcome) (h : now - tc < ttl) :
    getReportNames ⟨some c, tc, ttl⟩ now engine
      = (some (⟨some c, tc, ttl⟩, c), false) := by
  simp [getReportNames, h]

/-- A whole sequence of calls whose times stay within the TTL of the cache
timestamp performs zero invocations and returns the cached set each time. -/
lemma runCalls_cache_hits (c : Finset String) (tc ttl : ℚ)
    (calls : List (ℚ × FetchOutcome)) (h : ∀ p ∈ calls, p.1 - tc < ttl) :
    runCalls ⟨some c, tc, ttl⟩ calls
      = (⟨some c, tc, ttl⟩, 0, calls.map fun _ => some c) := by
  induction calls with
  | nil => rfl
  | cons p rest ih =>
    obtain ⟨now, engine⟩ := p
    have h1 : now - tc < ttl := h (now, engine) (List.mem_cons_self _ _)
    rw [runCalls, getReportNames_cache_hit c tc ttl now engine h1]
    simp [ih fun q hq => h q (List.mem_cons_of_mem _ hq)]

/-- `runBatch` calls the adapter once per uuid in order and collects exactly
the failing uuids' messages, in order. -/
lemma runBatch_eq (modify : String → List (String × String) → Bool × String)
    (failMsg : String → String → String) (mods : List (String × String))
    (uuids : List String) :
    runBatch modify failMsg mods uuids =
      ((uuids.filter fun u => !(modify u mods).1).map
          (fun u => failMsg u (modify u mods).2),
        uuids.map fun u => (u, mods)) := by
  induction uuids with
  | nil => rfl
  | cons u rest ih =>
    rw [runBatch, ih]
    by_cases h : (modify u mods).1
    · simp [List.filter_cons, h]
    · simp [List.filter_cons, h]

/-- Toggling the same field twice restores the selection state. -/
lemma DateFieldManager.toggle_toggle (m : DateFieldManager) (f : String) :
    (m.toggle f).toggle f = m := by
  obtain ⟨a⟩ := m
  unfold DateFieldManager.toggle
  by_cases h : f ∈ a
  · rw [if_pos h, if_neg (Finset.not_mem_erase f a)]
    exact congrArg DateFieldManager.mk (Finset.insert_erase h)
  · rw [if_neg h, if_pos (Finset.mem_insert_self f a)]
    exact congrArg DateFieldManager.mk (Finset.erase_insert h)

/-- Concrete states and a concrete adapter used to witness the app-level
theorems. -/
def wState3 : AppState :=
  { hotkeys := [("1", "tomorrow")], activeFields := ["scheduled"],
    selectedTasks := ["u1", "u2", "u3"], tasks := [], rowCount := 0,
    cursorValid := false, cursorRow := 0 }

/-- A state with every precondition of the batch operations unmet except the
hotkey: no active date fields. -/
def wState6 : AppState :=
  { hotkeys := [("1", "tomorrow")], activeFields := [], selectedTasks := ["u1"],
    tasks := [], rowCount := 0, cursorValid := false, cursorRow := 0 }

/-- A state with an empty selection set and the cursor on a valid task. -/
def wState7 : AppState :=
  { hotkeys := [], activeFields := [], selectedTasks := [],
    tasks := [⟨"X"⟩], rowCount := 1, cursorValid := true, cursorRow := 0 }

/-- A deterministic adapter oracle that rejects task `"u2"` and accepts the
rest. -/
def wModify : String → List (String × String) → Bool × String :=
  fun u _ => if u = "u2" then (false, "Cannot modify task") else (true, "")

/-- The adapter as the repository implements it, in the spec's test scenario
where the engine rejects task `"u2"` (exit code 1) and accepts the rest:
`modify_task` returns its bare bool (see `modifyTask`), wrapped as the Python
value the call sites then try to unpack. -/
def wRealAdapter : String → List (String × String) → PyResult :=
  fun uuid mods =>
    PyResult.bool (modifyTask initTWState uuid.toList
      (mods.map fun kv => (kv.1.toList, kv.2.toList))
      (if uuid = "u2" then 1 else 0) "Cannot modify task".toList).2

/-- The repository's adapter when every engine call succeeds (exit code 0):
still a bare bool. -/
def wOkAdapter : String → List (String × String) → PyResult :=
  fun uuid mods =>
    PyResult.bool (modifyTask initTWState uuid.toList
      (mods.map fun kv => (kv.1.toList, kv.2.toList)) 0 "".toList).2

/-! ## Claim theorems -/

/-- C1: `get_tasks` normalizes `None` to `"next"` and strips other inputs,
tokenizes on whitespace, exports all with zero tokens, and otherwise treats
the last token as the report exactly when it is a known report name (filter
tokens preceding `export <report>`), else passes all tokens as a filter
before `export`.  Stated as: the command builder embedded from the source
equals the spec's resolution algorithm on every input, together with the
spec's four worked examples over the report-name set
`{"next", "all", "overdue"}`. -/
theorem get_tasks_command_resolution :
    (∀ (input : Option (List Char)) (rn : List (List Char)),
      getTasksCmd input rn = getTasksCmdSpec input rn)
  ∧ getTasksCmd (some "project:work next".toList)
        ["next".toList, "all".toList, "overdue".toList]
      = ["task".toList, "rc.confirmation=off".toList, "rc.hooks=0".toList,
          "project:work".toList, "export".toList, "next".toList]
  ∧ getTasksCmd (some "status:pending".toList)
        ["next".toList, "all".toList, "overdue".toList]
      = ["task".toList, "rc.confirmation=off".toList, "rc.hooks=0".toList,
          "status:pending".toList, "export".toList]
  ∧ getTasksCmd (some "".toList)
        ["next".toList, "all".toList, "overdue".toList]
      = ["task".toList, "rc.confirmation=off".toList, "rc.hooks=0".toList,
          "export".toList]
  ∧ getTasksCmd none ["next".toList, "all".toList, "overdue".toList]
      = getTasksCmd (some "next".toList)
          ["next".toList, "all".toList, "overdue".toList] :=
  ⟨fun input rn => getTasksCmdCore_eq_spec (normalizeFilter input) rn,
    by decide, by decide, by decide, by decide⟩

/-- C2: starting from a fresh client, a successful lookup at time `t0`
invokes the engine once and every further lookup within the 15-second TTL
returns the cached set with no further invocation (exactly one subprocess run
for the whole sequence); moreover any call finding a cache younger than the
TTL is a pure cache hit, and a call at `t` with `15 ≤ t - t0` re-invokes the
engine and stores the newly parsed set with timestamp `t`. -/
theorem report_name_cache_ttl (t0 : ℚ) (names : Finset String)
    (rest : List (ℚ × FetchOutcome)) (hrest : ∀ p ∈ rest, p.1 - t0 < 15) :
    runCalls initTWState ((t0, FetchOutcome.ok names) :: rest)
      = (⟨some names, t0, 15⟩, 1, some names :: rest.map fun _ => some names)
  ∧ (∀ (c : Finset String) (tc ttl now : ℚ) (engine : FetchOutcome),
      now - tc < ttl →
      getReportNames ⟨some c, tc, ttl⟩ now engine
        = (some (⟨some c, tc, ttl⟩, c), false))
  ∧ (∀ (c names' : Finset String) (tc t : ℚ), 15 ≤ t - tc →
      getReportNames ⟨some c, tc, 15⟩ t (FetchOutcome.ok names')
        = (some (⟨some names', t, 15⟩, names'), true)) := by
  refine ⟨?_, fun c tc ttl now engine h => getReportNames_cache_hit _ _ _ _ _ h, ?_⟩
  · rw [runCalls]
    have h0 : getReportNames initTWState t0 (FetchOutcome.ok names)
        = (some (⟨some names, t0, 15⟩, names), true) := rfl
    rw [h0]
    simp [runCalls_cache_hits names t0 15 rest hrest]
  · intro c names' tc t h
    simp [getReportNames, getReportNamesFetch, not_lt.mpr h]

/-- Witness for C2: two calls at times 0 and 5 on a fresh client run the
subprocess once and both return the set fetched at time 0; a later call at
time 20 against the time-0 cache re-invokes and restores. -/
theorem report_name_cache_ttl_witness :
    runCalls initTWState [((0 : ℚ), FetchOutcome.ok {"next"}), ((5 : ℚ), FetchOutcome.err)]
      = (⟨some {"next"}, 0, 15⟩, 1, [some {"next"}, some {"next"}])
  ∧ getReportNames ⟨some {"next"}, 0, 15⟩ 20 (FetchOutcome.ok ∅)
      = (some (⟨some ∅, 20, 15⟩, ∅), true) := by
  have h := report_name_cache_ttl 0 {"next"} [((5 : ℚ), FetchOutcome.err)]
    (by intro p hp; rw [List.mem_singleton] at hp; subst hp; norm_num)
  exact ⟨h.1, h.2.2 {"next"} ∅ 0 20 (by norm_num)⟩

/-- C4: the claim says `modify_task` returns a `(success, diagnostic-text)`
pair.  The source instead returns the bare boolean `result.returncode == 0`
and drops the captured stderr: evaluating the embedded `modify_task` on a
rejected modification (exit code 1, stderr `"Cannot modify task"`) yields
only `false`, with no diagnostic component — contradicting the repository's
own tests and the unpacking call sites in `app.py`. -/
theorem modify_task_bool_only_result :
    modifyTask initTWState "aaaaaaaa-aaaa-aaaa-aaaa-aaaaaaaaaaaa".toList
      [("scheduled".toList, "invalid".toList)] 1 "Cannot modify task".toList
      = (initTWState, false) := rfl

/-- C5: the claim says the modify invocation carries `rc.bulk=0` and
`rc.recurrence.confirmation=no` and that all invocations run with no
inherited stdin and an explicit bounded timeout.  The source's `modify_task`
command omits both flags (contradicting
`test_modify_task_uses_correct_rc_options`), and every `subprocess.run` call
in `taskwarrior.py` passes neither a `timeout=` nor any stdin redirection. -/
theorem modify_task_missing_conventions :
    "rc.bulk=0".toList ∉
        modifyTaskCmd "test-uuid".toList [("test".toList, "value".toList)]
  ∧ "rc.recurrence.confirmation=no".toList ∉
        modifyTaskCmd "test-uuid".toList [("test".toList, "value".toList)]
  ∧ modifyTaskCmd "test-uuid".toList [("test".toList, "value".toList)]
      = ["task".toList, "rc.confirmation=off".toList, "rc.hooks=0".toList,
          "uuid:test-uuid".toList, "modify".toList, "test:value".toList]
  ∧ modifyTaskRunOptions.timeout = none
  ∧ modifyTaskRunOptions.stdinClosed = false
  ∧ getTasksRunOptions.timeout = none
  ∧ getTasksRunOptions.stdinClosed = false
  ∧ getReportNamesRunOptions.timeout = none
  ∧ getReportNamesRunOptions.stdinClosed = false :=
  ⟨by decide, by decide, by decide, rfl, rfl, rfl, rfl, rfl, rfl⟩

/-- C9: `modify_task` leaves the report-name cache exactly as it was — the
cached set, its fetch timestamp and its TTL are unchanged for every argument
list and every engine outcome. -/
theorem modify_task_cache_frame (s : TWState) (uuid : List Char)
    (mods : List (List Char × List Char)) (rc : Int) (stderr : List Char) :
    (modifyTask s uuid mods rc stderr).1.reportCache = s.reportCache
  ∧ (modifyTask s uuid mods rc stderr).1.reportCacheTime = s.reportCacheTime
  ∧ (modifyTask s uuid mods rc stderr).1.reportCacheTtl = s.reportCacheTtl :=
  ⟨rfl, rfl, rfl⟩

/-- C10: a cached empty report-name set within its TTL is returned as-is with
no engine invocation: validity is decided by the cache being present and
young, never by the truthiness of the cached set. -/
theorem empty_report_set_still_cached (tf now ttl : ℚ) (engine : FetchOutcome)
    (h : now - tf < ttl) :
    getReportNames ⟨some ∅, tf, ttl⟩ now engine
      = (some (⟨some ∅, tf, ttl⟩, ∅), false) :=
  getReportNames_cache_hit ∅ tf ttl now engine h

/-- Witness for C10: a client whose cache is the empty set fetched at time 0
returns it at time 14 without consulting the engine (which here would fail if
invoked). -/
theorem empty_report_set_still_cached_witness :
    getReportNames ⟨some ∅, 0, 15⟩ 14 FetchOutcome.err
      = (some (⟨some ∅, 0, 15⟩, ∅), false) :=
  empty_report_set_still_cached 0 14 15 FetchOutcome.err (by norm_num)

/-- C3: the claim fails on the code.  With three selected tasks, a configured
hotkey and one active field — the spec's own batch scenario, with the engine
rejecting task `"u2"` — the program as actually executed makes exactly one
adapter call (to the first target only), reports no per-task failure, and
never reaches `clear_selection()` or `refresh_tasks()`: the tuple unpack
`success, stderr = modify_task(...)` raises `TypeError` on the bare bool
`modify_task` returns.  The same holds for `action_clear_date`, and even when
every engine call would succeed. -/
theorem batch_mutation_unpack_type_error :
    scheduleWithHotkeyPy wState3 "1" wRealAdapter
      = { errors := [], modifyCalls := [("u1", [("scheduled", "tomorrow")])],
          raisedTypeError := true, selectionCleared := false, refreshed := false }
  ∧ actionClearDatePy wState3 wRealAdapter
      = { errors := [], modifyCalls := [("u1", [("scheduled", "")])],
          raisedTypeError := true, selectionCleared := false, refreshed := false }
  ∧ scheduleWithHotkeyPy wState3 "1" wOkAdapter
      = { errors := [], modifyCalls := [("u1", [("scheduled", "tomorrow")])],
          raisedTypeError := true, selectionCleared := false, refreshed := false } :=
  ⟨rfl, rfl, rfl⟩

/-- C6: each unmet precondition of the hotkey batch schedule yields exactly
its own error notification and nothing else — no adapter call, no selection
clearing, no refresh: an unconfigured hotkey, then (for a configured hotkey)
an empty active-field set, then an empty target set. -/
theorem batch_schedule_preconditions (s : AppState) (hotkey : String)
    (modify : String → List (String × String) → Bool × String) :
    (lookupHotkey s.hotkeys hotkey = none →
      scheduleWithHotkey s hotkey modify
        = { errors := ["Hotkey " ++ hotkey ++ " not configured"],
            modifyCalls := [], selectionCleared := false, refreshed := false })
  ∧ (∀ v, lookupHotkey s.hotkeys hotkey = some v → s.activeFields = [] →
      scheduleWithHotkey s hotkey modify
        = { errors := ["No active date fields. Use W/S/D to toggle."],
            modifyCalls := [], selectionCleared := false, refreshed := false })
  ∧ (∀ v, lookupHotkey s.hotkeys hotkey = some v → s.activeFields ≠ [] →
      get_selected_tasks s = [] →
      scheduleWithHotkey s hotkey modify
        = { errors := ["No tasks selected"], modifyCalls := [],
            selectionCleared := false, refreshed := false }) := by
  refine ⟨?_, ?_, ?_⟩
  · intro h
    unfold scheduleWithHotkey
    rw [h]
  · intro v hv hf
    unfold scheduleWithHotkey
    rw [hv]
    simp only [if_pos hf]
  · intro v hv hf ht
    unfold scheduleWithHotkey
    rw [hv]
    simp only [if_neg hf, if_pos ht]

/-- Witness for C6: with a configured hotkey but zero active date fields, the
batch schedule produces only the "no active fields" error and no other
effect. -/
theorem batch_schedule_preconditions_witness :
    scheduleWithHotkey wState6 "1" wModify
      = { errors := ["No active date fields. Use W/S/D to toggle."],
          modifyCalls := [], selectionCleared := false, refreshed := false } :=
  (batch_schedule_preconditions wState6 "1" wModify).2.1 "tomorrow" rfl rfl

/-- C7: the effective-target computation returns the selection set's members
whenever the set is non-empty (regardless of cursor state); with an empty
set it returns the singleton of the cursor task's uuid when the table is
non-empty, the cursor coordinate is valid, the cursor row indexes the task
snapshot and that task has a non-empty uuid; in every other case it returns
the empty list. -/
theorem get_selected_tasks_resolution (s : AppState) :
    (s.selectedTasks ≠ [] → get_selected_tasks s = s.selectedTasks)
  ∧ (∀ t : TaskRec, s.selectedTasks = [] → s.rowCount ≠ 0 →
      s.cursorValid = true → 0 ≤ s.cursorRow →
      s.cursorRow < (s.tasks.length : Int) →
      s.tasks.get? s.cursorRow.toNat = some t → t.uuid ≠ "" →
      get_selected_tasks s = [t.uuid])
  ∧ (s.selectedTasks = [] →
      (s.rowCount = 0 ∨ s.cursorValid = false ∨
        ¬(0 ≤ s.cursorRow ∧ s.cursorRow < (s.tasks.length : Int)) ∨
        (∃ t, s.tasks.get? s.cursorRow.toNat = some t ∧ t.uuid = "")) →
      get_selected_tasks s = []) := by
  refine ⟨?_, ?_, ?_⟩
  · intro h
    rw [get_selected_tasks, if_pos h]
  · intro t h0 h1 h2 h3 h4 hget huuid
    rw [get_selected_tasks, if_neg (by simp [h0]), if_neg h1,
      if_neg (by simp [h2]), if_pos ⟨h3, h4⟩, hget]
    simp [huuid]
  · intro h0 hcase
    rw [get_selected_tasks, if_neg (by simp [h0])]
    rcases hcase with h | h | h | ⟨t, hget, huuid⟩
    · rw [if_pos h]
    · split_ifs with h1 h2 h3 <;> first | rfl | exact absurd h h2
    · split_ifs with h1 h2 h3 <;> first | rfl | exact absurd h3 h
    · split_ifs <;> try rfl
      rw [hget]
      simp [huuid]

/-- Witness for C7: with an empty selection and the cursor on the task with
uuid `"X"` the targets are `["X"]`; with a non-empty selection the targets
are its members regardless of cursor state. -/
theorem get_selected_tasks_resolution_witness :
    get_selected_tasks wState7 = ["X"]
  ∧ get_selected_tasks wState3 = ["u1", "u2", "u3"] :=
  ⟨(get_selected_tasks_resolution wState7).2.1 ⟨"X"⟩ rfl (by decide) rfl
      (by decide) (by decide) rfl (by decide),
    (get_selected_tasks_resolution wState3).1 (by decide)⟩

/-- C8: toggling any field twice returns the date-field selection to its
original state (toggle is an involution), `get_active` always returns a
sorted sequence whose members are exactly the active set, and starting from
active set `{"scheduled"}`, toggling `"due"` twice yields `{"scheduled"}`
again. -/
theorem date_field_selection_properties :
    (∀ (m : DateFieldManager) (f : String), (m.toggle f).toggle f = m)
  ∧ (∀ m : DateFieldManager, m.get_active.Sorted (· ≤ ·))
  ∧ (∀ (m : DateFieldManager) (f : String), f ∈ m.get_active ↔ f ∈ m.active)
  ∧ (((DateFieldManager.init ["scheduled"]).toggle "due").toggle "due").get_active
      = ["scheduled"] := by
  refine ⟨DateFieldManager.toggle_toggle, fun m => Finset.sort_sorted _ _,
    fun m f => Finset.mem_sort _, ?_⟩
  rw [DateFieldManager.toggle_toggle]
  unfold DateFieldManager.get_active DateFieldManager.init
  rw [show (["scheduled"].toFinset : Finset String) = {"scheduled"} from rfl]
  exact Finset.sort_singleton _ _

end Schedule
